import Mathlib

/-!
Shallow embedding of the list-backed panel widgets of this repository:
the related-issues panel (`RelatedIssuesWidget`, `RelatedIssueCollapsible`),
the subtasks panel (`IssueChildWorkItemsWidget`), and the ADF format
converter (`ADFTextAreaWidget._convert_to_markdown`).

Python optional values are `Option`, Python truthiness is made explicit,
and any Python operation that can raise (attribute access on a possibly
absent value) is modelled in `Except`.
-/

/-- Python str-formatting of an optional string: an f-string renders
an absent value as the literal text "None". -/
def pyFormat : Option String → String
  | Option.none => "None"
  | some s => s

/-- Python truthiness of an optional string: absent and empty are falsy. -/
def pyTruthyStr : Option String → Bool
  | Option.none => false
  | some s => ¬ s = ""

/-- Python truthiness test `not items` for an optional list:
true exactly when the value is absent or the empty list. -/
def pyFalsyList {α : Type} (items : Option (List α)) : Bool :=
  match items with
  | Option.none => true
  | some l => l.isEmpty

/-- Python truthiness of `s.strip()`: true exactly when the string holds
a character that is not whitespace. -/
def pyStripTruthy (s : String) : Bool :=
  s.toList.any fun c => ¬ c.isWhitespace

/-- Severity of a user-visible notice (Textual `notify` severity). -/
inductive Severity
  | information
  | error
deriving Repr, DecidableEq

/-- A user-visible notice produced by `self.notify(...)`. -/
structure Notice where
  message : String
  severity : Severity
  title : String
deriving Repr, DecidableEq

/-- Modelled from the spec: a related item record
("identifying key (string), optional numeric/string id used for
delete/unlink operations, display title, status label, optional priority
label, optional externally browsable URL"); the model module itself is
not part of the excerpt.  `cleanedSummary` and `displayStatus` stand for
the `cleaned_summary()` and `display_status()` methods of the item. -/
structure RelatedJiraIssue where
  key : String
  id : Option String
  linkType : String
  cleanedSummary : String
  displayStatus : String
  priorityName : Option String
deriving Repr, DecidableEq

/-- Modelled from the spec: a child work item record; the fields consumed
by the subtasks panel are the key, the cleaned summary, the status label,
the optional issue-type label and the assignee display text.  The parent item of the panel additionally carries the optional relationship list
(`related_issues`). -/
structure JiraIssue where
  key : String
  cleanedSummary : String
  statusName : String
  issueTypeName : Option String
  displayAssignee : String
  relatedIssues : Option (List RelatedJiraIssue)
deriving Repr, DecidableEq

/-- Shape of `APIControllerResponse`: success flag, optional error description,
optional payload. -/
structure APIControllerResponse (α : Type) where
  success : Bool
  error : Option String
  result : Option α
deriving Repr, DecidableEq

/-- The payload of `get_issue`: a result object carrying a list of issues. -/
structure SearchResult where
  issues : List JiraIssue
deriving Repr, DecidableEq

/-- One rendered row of the related-issues panel: the
`RelatedIssueCollapsible` built in `watch_issues`. -/
structure RelatedRow where
  summary : String
  url : Option String
  title : String
  work_item_key : String
  link_id : Option String
  border_subtitle : Option String
  css_class : Option String
deriving Repr, DecidableEq

/-- One rendered row of the subtasks panel: the
`ChildWorkItemCollapsible` built in `watch_issues`. -/
structure ChildRow where
  body : List String
  url : Option String
  title : String
  work_item_key : String
  border_title : String
  border_subtitle : String
deriving Repr, DecidableEq

/-- Display state of the related-issues panel: the mounted rows, and the
`display` flags of the loading container and the content container. -/
structure RelatedPanelView where
  rows : List RelatedRow
  loading_display : Bool
  content_display : Bool
deriving Repr, DecidableEq

/-- Display state of the subtasks panel. -/
structure SubtasksPanelView where
  rows : List ChildRow
  loading_display : Bool
  content_display : Bool
deriving Repr, DecidableEq

namespace RelatedIssuesWidget

/-- Fixed notice title of the related-issues panel. -/
def NOTIFICATIONS_DEFAULT_TITLE : String := "Related Work Items"

/-- The row builder of `RelatedIssuesWidget.watch_issues` (the loop body,
lines 222-245): builds one `RelatedIssueCollapsible` from one item.
`urls` is the external `build_external_url_for_issue` collaborator and
`styling` the `RELATED_WORK_ITEMS_PRIORITY_BASED_STYLING` lookup composed
with the `collapsible_class` extraction (absent result means no class
applied).  The source guards `border_subtitle` with
`if issue.priority_name:` but then calls `issue.priority_name.lower()`
unconditionally, so an absent priority name raises `AttributeError`,
modelled as `Except.error`. -/
def buildRelatedRow (urls : String → Option String) (styling : String → Option String)
    (issue : RelatedJiraIssue) : Except String RelatedRow :=
  let url := urls issue.key
  let title := issue.linkType ++ " | " ++ issue.key ++ " | " ++ issue.displayStatus
  let border_subtitle :=
    if pyTruthyStr issue.priorityName then some (pyFormat issue.priorityName ++ " priority")
    else Option.none
  match issue.priorityName with
  | Option.none =>
      Except.error "AttributeError: NoneType object has no attribute lower"
  | some pn =>
      Except.ok
        { summary := issue.cleanedSummary
          url := url
          title := title
          work_item_key := issue.key
          link_id := issue.id
          border_subtitle := border_subtitle
          css_class := styling pn.toLower }

/-- Method `RelatedIssuesWidget.watch_issues`: clear all previously rendered
rows, then either show the empty loaded state (empty/absent items) or
build one row per item in order and mount them in one batch.  A row
builder failure propagates as an exception (the container stays
cleared). -/
def watch_issues (urls : String → Option String) (styling : String → Option String)
    (view : RelatedPanelView) (items : Option (List RelatedJiraIssue)) :
    Except String RelatedPanelView :=
  let view := { view with rows := [] }
  if pyFalsyList items then
    Except.ok { view with loading_display := false, content_display := true }
  else
    ((items.getD []).mapM (buildRelatedRow urls styling)).map
      fun rows => { view with rows := rows }

/-- The `issues` reactive of `RelatedIssuesWidget` is declared
`reactive(None)` without `always_update`. -/
def always_update : Bool := false

/-- Method `RelatedIssuesWidget.link_work_items`: call the link API; on failure
notify an error and leave the panel state untouched; on success notify,
re-fetch the parent item restricted to the `issuelinks` field, and only
when the fetch succeeds with a non-empty issue list replace the panel
state with the relationship list of the first issue (empty list when that
field is absent).  `api_get_issue` is the external
`application.api.get_issue` collaborator. -/
def link_work_items
    (api_link : APIControllerResponse Unit)
    (api_get_issue : Option String → List String → APIControllerResponse SearchResult)
    (issue_key : Option String)
    (st : Option (List RelatedJiraIssue)) :
    Option (List RelatedJiraIssue) × Notice :=
  if ¬ api_link.success then
    (st, { message := "Failed to link the work items: " ++ pyFormat api_link.error
           severity := Severity.error
           title := NOTIFICATIONS_DEFAULT_TITLE })
  else
    let notice : Notice :=
      { message := "Work items linked successfully"
        severity := Severity.information
        title := NOTIFICATIONS_DEFAULT_TITLE }
    let response := api_get_issue issue_key ["issuelinks"]
    match response.result with
    | Option.none => (st, notice)
    | some result =>
        if response.success ∧ ¬ result.issues = [] then
          match result.issues with
          | [] => (st, notice)
          | work_item :: _ => (some (work_item.relatedIssues.getD []), notice)
        else (st, notice)

end RelatedIssuesWidget

namespace RelatedIssueCollapsible

/-- Fixed notice title of the related-issues rows. -/
def NOTIFICATIONS_DEFAULT_TITLE : String := "Related Work Items"

/-- Method `RelatedIssueCollapsible.delete_link`: call the unlink API; on
failure notify an error with the server-supplied reason and leave the
parent panel state untouched; on success notify and filter the parent
panel state in place (`[i for i in self.parent.issues or [] if i.id !=
self._link_id]`), coercing an absent state to the empty list first. -/
def delete_link (response : APIControllerResponse Unit) (link_id : Option String)
    (st : Option (List RelatedJiraIssue)) :
    Option (List RelatedJiraIssue) × Notice :=
  if ¬ response.success then
    (st, { message := "Failed to delete the link: " ++ pyFormat response.error
           severity := Severity.error
           title := NOTIFICATIONS_DEFAULT_TITLE })
  else
    (some ((st.getD []).filter fun i => ¬ i.id = link_id),
     { message := "Link between work items deleted successfully"
       severity := Severity.information
       title := NOTIFICATIONS_DEFAULT_TITLE })

end RelatedIssueCollapsible

namespace IssueChildWorkItemsWidget

/-- The row builder of `IssueChildWorkItemsWidget.watch_issues` (the loop
body, lines 146-164): builds one `ChildWorkItemCollapsible` from one
child item.  The status/type/assignee block is three f-strings; an
absent issue-type label renders as the text "None" and never raises. -/
def buildChildRow (urls : String → Option String) (issue : JiraIssue) : ChildRow :=
  { body := ["Status: " ++ issue.statusName,
             "Type: " ++ pyFormat issue.issueTypeName,
             "Assignee: " ++ issue.displayAssignee]
    url := urls issue.key
    title := issue.cleanedSummary
    work_item_key := issue.key
    border_title := issue.key
    border_subtitle := issue.statusName }

/-- Method `IssueChildWorkItemsWidget.watch_issues`: clear all previously
rendered rows, then either show the empty loaded state (empty/absent
items) or build one row per item in order and mount them in one batch. -/
def watch_issues (urls : String → Option String)
    (view : SubtasksPanelView) (items : Option (List JiraIssue)) : SubtasksPanelView :=
  let view := { view with rows := [] }
  if pyFalsyList items then
    { view with loading_display := false, content_display := true }
  else
    { view with rows := (items.getD []).map (buildChildRow urls) }

/-- The `issues` reactive of `IssueChildWorkItemsWidget` is declared
`reactive(None, always_update=True)`. -/
def always_update : Bool := true

end IssueChildWorkItemsWidget

/-- Modelled from the spec: the reactive-attribute machinery of the host framework, its
dispatch ("Setting this value — unconditionally, even to an equal value,
for one of the two panel variants — triggers a render pass").  Assigning
`new` over `old` invokes the watcher when the value changed, or always
when the reactive was declared with `always_update`; the returned flag
records whether the watcher ran. -/
def reactive_set {α σ : Type} [DecidableEq α] (always_upd : Bool) (old new : α)
    (watch : α → σ → σ) (view : σ) : σ × Bool :=
  if always_upd ∨ ¬ old = new then (watch new view, true) else (view, false)

/-- The value passed to the ADF converter: a structured document, a plain
string, or absent.  For a structured document only its Python `str(...)`
rendering and its truthiness matter here; the document content is
consumed by the external transform, which is a parameter. -/
inductive ADFValue
  | doc (repr_text : String) (nonempty : Bool)
  | str (s : String)
  | null
deriving Repr, DecidableEq

/-- Python truthiness of an `ADFValue`. -/
def ADFValue.pyTruthy : ADFValue → Bool
  | ADFValue.doc _ nonempty => nonempty
  | ADFValue.str s => ¬ s = ""
  | ADFValue.null => false

/-- Python `str(value)` of an `ADFValue`. -/
def ADFValue.pyStr : ADFValue → String
  | ADFValue.doc r _ => r
  | ADFValue.str s => s
  | ADFValue.null => "None"

namespace ADFTextAreaWidget

/-- Modelled from the spec: the external document-to-text transform
`convert_adf_to_markdown(value, base_url)` ("Absent or
already-plain-string input: pass through (string)"; "Structured-document
input: run a deterministic document→text transformation (external
collaborator ...), may throw").  A plain string passes through, an
absent value yields the empty text, and a structured document is handed
to the transform, which may throw. -/
def convert_adf_to_markdown (transform : String → Bool → Except String String) :
    ADFValue → Except String String
  | ADFValue.null => Except.ok ""
  | ADFValue.str s => Except.ok s
  | ADFValue.doc r n => transform r n

/-- Method `ADFTextAreaWidget._convert_to_markdown`: run the transform; replace
a blank/whitespace-only result with the placeholder; catch any exception,
log a warning carrying the exception text (second component), and fall
back to the stringified original value when truthy, otherwise the
placeholder.  The function is total: it never propagates an exception. -/
def _convert_to_markdown (transform : String → Bool → Except String String)
    (value : ADFValue) : String × Option String :=
  match convert_adf_to_markdown transform value with
  | Except.ok markdown =>
      (if pyStripTruthy markdown then markdown else "_No content_", Option.none)
  | Except.error e =>
      (if value.pyTruthy then value.pyStr else "_No content_",
       some ("Failed to convert ADF to markdown: " ++ e))

end ADFTextAreaWidget

/-! Concrete fixtures used to evaluate the embedded code. -/

/-- A URL builder that derives no browsable URL. -/
def urls0 : String → Option String := fun _ => Option.none

/-- A priority styling table with no entries. -/
def styling0 : String → Option String := fun _ => Option.none

/-- A panel view in the loading display state. -/
def view0 : RelatedPanelView :=
  { rows := [], loading_display := true, content_display := false }

/-- A related item with an absent priority name. -/
def relNoPrio : RelatedJiraIssue :=
  { key := "REL-1", id := some "L9", linkType := "blocks", cleanedSummary := "a summary"
    displayStatus := "Open", priorityName := Option.none }

/-- A related item with a priority name not present in the styling table. -/
def relUnknown : RelatedJiraIssue :=
  { key := "REL-2", id := some "L2", linkType := "blocks", cleanedSummary := "a summary"
    displayStatus := "Open", priorityName := some "Mystery" }

/-- A related item with link id L1. -/
def relHighA : RelatedJiraIssue :=
  { key := "REL-A", id := some "L1", linkType := "blocks", cleanedSummary := "sa"
    displayStatus := "Open", priorityName := some "High" }

/-- A related item with link id L2. -/
def relHighB : RelatedJiraIssue :=
  { key := "REL-B", id := some "L2", linkType := "relates to", cleanedSummary := "sb"
    displayStatus := "Open", priorityName := some "Low" }

/-- A related item with link id L3. -/
def relHighC : RelatedJiraIssue :=
  { key := "REL-C", id := some "L3", linkType := "duplicates", cleanedSummary := "sc"
    displayStatus := "Done", priorityName := some "High" }

/-- A second related item carrying the same link id L1 as `relHighA`. -/
def relDupA : RelatedJiraIssue :=
  { key := "REL-D", id := some "L1", linkType := "blocks", cleanedSummary := "sd"
    displayStatus := "Open", priorityName := some "Low" }

/-- A one-item panel state. -/
def st1 : Option (List RelatedJiraIssue) := some [relHighA]

/-- A three-item panel state with link ids L1, L2, L3. -/
def st3 : Option (List RelatedJiraIssue) := some [relHighA, relHighB, relHighC]

/-- A panel state holding two items with the same link id L1. -/
def stDup : Option (List RelatedJiraIssue) := some [relHighA, relDupA, relHighB]

/-- A successful API response with no payload. -/
def respOk : APIControllerResponse Unit :=
  { success := true, error := Option.none, result := Option.none }

/-- A failed API response with the server reason "permission denied". -/
def respDenied : APIControllerResponse Unit :=
  { success := false, error := some "permission denied", result := Option.none }

/-- A failed API response with the server reason "boom". -/
def respBoom : APIControllerResponse Unit :=
  { success := false, error := some "boom", result := Option.none }

/-- A `get_issue` collaborator whose every call fails. -/
def getIssueFail : Option String → List String → APIControllerResponse SearchResult :=
  fun _ _ => { success := false, error := some "timeout", result := Option.none }

/-- A parent work item whose relationship field is absent. -/
def parentNoLinks : JiraIssue :=
  { key := "KEY-1", cleanedSummary := "parent", statusName := "Open"
    issueTypeName := Option.none, displayAssignee := "me", relatedIssues := Option.none }

/-- A `get_issue` collaborator returning `parentNoLinks`. -/
def getIssueParent : Option String → List String → APIControllerResponse SearchResult :=
  fun _ _ =>
    { success := true, error := Option.none, result := some { issues := [parentNoLinks] } }

/-- A child work item with an absent issue-type label. -/
def childNoType : JiraIssue :=
  { key := "SUB-1", cleanedSummary := "child", statusName := "Done"
    issueTypeName := Option.none, displayAssignee := "Unassigned"
    relatedIssues := Option.none }

/-- A document transform that always throws. -/
def failTransform : String → Bool → Except String String :=
  fun _ _ => Except.error "boom"

/-- A document transform that returns the document text unchanged. -/
def okTransform : String → Bool → Except String String :=
  fun r _ => Except.ok r

/-- A non-empty structured document. -/
def adfDoc1 : ADFValue := ADFValue.doc "adf document body" true

/-- C2: the claim says the related-issues row builder skips the
priority-based style-classification lookup entirely when the priority
name is absent and never raises.  The source calls
`issue.priority_name.lower()` outside the truthiness guard, so the
builder raises AttributeError on an absent priority name; for a present
but unknown priority name the lookup yields no style class and does not
fail. -/
theorem related_row_builder_priority_guard :
    RelatedIssuesWidget.buildRelatedRow urls0 styling0 relNoPrio
      = Except.error "AttributeError: NoneType object has no attribute lower"
    ∧ RelatedIssuesWidget.buildRelatedRow urls0 styling0 relUnknown
      = Except.ok
          { summary := "a summary", url := Option.none
            title := "blocks | REL-2 | Open", work_item_key := "REL-2"
            link_id := some "L2", border_subtitle := some "Mystery priority"
            css_class := Option.none } :=
  ⟨rfl, rfl⟩

/-- C1: setting Panel State to a sequence S yields exactly one row per
item of S, in order, each keyed by the work-item key of the item.  This
holds for the subtasks panel (first conjunct) but fails for the
related-issues panel: on a one-item sequence whose item has an absent
priority name the render pass raises instead of producing one row
(second conjunct). -/
theorem subtasks_rows_match_items_and_related_render_crashes :
    (∀ (urls : String → Option String) (view : SubtasksPanelView) (S : List JiraIssue),
      (IssueChildWorkItemsWidget.watch_issues urls view (some S)).rows.map
          ChildRow.work_item_key
        = S.map JiraIssue.key
      ∧ (IssueChildWorkItemsWidget.watch_issues urls view (some S)).rows.length = S.length)
    ∧ RelatedIssuesWidget.watch_issues urls0 styling0 view0 (some [relNoPrio])
        = Except.error "AttributeError: NoneType object has no attribute lower" := by
  constructor
  · intro urls view S
    cases S with
    | nil =>
        simp [IssueChildWorkItemsWidget.watch_issues, pyFalsyList]
    | cons a t =>
        simp [IssueChildWorkItemsWidget.watch_issues, pyFalsyList,
              IssueChildWorkItemsWidget.buildChildRow, List.map_map, Function.comp]
  · rfl

/-- C7: setting Panel State to the absent value or the empty sequence
yields zero rendered rows, hides the loading indicator and shows the
content area, for both panels, from any prior view state. -/
theorem empty_items_render_loaded_empty :
    (∀ (urls styling : String → Option String) (view : RelatedPanelView),
      RelatedIssuesWidget.watch_issues urls styling view Option.none
        = Except.ok { rows := [], loading_display := false, content_display := true }
      ∧ RelatedIssuesWidget.watch_issues urls styling view (some [])
        = Except.ok { rows := [], loading_display := false, content_display := true })
    ∧ (∀ (urls : String → Option String) (view : SubtasksPanelView),
      IssueChildWorkItemsWidget.watch_issues urls view Option.none
        = { rows := [], loading_display := false, content_display := true }
      ∧ IssueChildWorkItemsWidget.watch_issues urls view (some [])
        = { rows := [], loading_display := false, content_display := true }) :=
  ⟨fun _ _ _ => ⟨rfl, rfl⟩, fun _ _ => ⟨rfl, rfl⟩⟩

/-- C8: rendering is a pure function of the current Panel State — the
rows produced by a render pass do not depend on the previously rendered
rows or display flags (clear-then-rebuild, never an incremental diff),
for both panels; and the subtasks reactive is declared with
`always_update`, so assigning a value equal to the current one still runs
the watcher, while the related-issues reactive is not. -/
theorem render_pure_and_subtasks_always_update :
    (∀ (urls : String → Option String) (v1 v2 : SubtasksPanelView)
       (items : Option (List JiraIssue)),
      (IssueChildWorkItemsWidget.watch_issues urls v1 items).rows
        = (IssueChildWorkItemsWidget.watch_issues urls v2 items).rows)
    ∧ (∀ (urls styling : String → Option String) (v1 v2 : RelatedPanelView)
         (items : Option (List RelatedJiraIssue)),
      (RelatedIssuesWidget.watch_issues urls styling v1 items).map RelatedPanelView.rows
        = (RelatedIssuesWidget.watch_issues urls styling v2 items).map RelatedPanelView.rows)
    ∧ (∀ (σ : Type) (x : Option (List JiraIssue))
         (watch : Option (List JiraIssue) → σ → σ) (view : σ),
      reactive_set IssueChildWorkItemsWidget.always_update x x watch view
        = (watch x view, true))
    ∧ IssueChildWorkItemsWidget.always_update = true
    ∧ RelatedIssuesWidget.always_update = false := by
  refine ⟨?_, ?_, ?_, rfl, rfl⟩
  · intro urls v1 v2 items
    cases h : pyFalsyList items <;>
      simp [IssueChildWorkItemsWidget.watch_issues, h]
  · intro urls styling v1 v2 items
    unfold RelatedIssuesWidget.watch_issues
    cases h : pyFalsyList items
    · simp only [h, Bool.false_eq_true, if_false]
      cases (items.getD []).mapM (RelatedIssuesWidget.buildRelatedRow urls styling) <;> rfl
    · simp [h]
  · intro σ x watch view
    simp [reactive_set, IssueChildWorkItemsWidget.always_update]

/-- C9: the subtasks row builder treats an absent issue-type label as a
normal control-flow branch and never raises while building the
status/type/assignee block: the type line renders as the literal text
"Type: None". -/
theorem child_row_builder_absent_type_label
    (urls : String → Option String) (issue : JiraIssue)
    (h : issue.issueTypeName = Option.none) :
    IssueChildWorkItemsWidget.buildChildRow urls issue
      = { body := ["Status: " ++ issue.statusName, "Type: None",
                   "Assignee: " ++ issue.displayAssignee]
          url := urls issue.key
          title := issue.cleanedSummary
          work_item_key := issue.key
          border_title := issue.key
          border_subtitle := issue.statusName } := by
  simp [IssueChildWorkItemsWidget.buildChildRow, h, pyFormat]

/-- Witness for C9 at a concrete child item with an absent issue-type
label. -/
theorem child_row_builder_absent_type_label_witness :
    IssueChildWorkItemsWidget.buildChildRow urls0 childNoType
      = { body := ["Status: Done", "Type: None", "Assignee: Unassigned"]
          url := Option.none, title := "child", work_item_key := "SUB-1"
          border_title := "SUB-1", border_subtitle := "Done" } :=
  (child_row_builder_absent_type_label urls0 childNoType rfl).trans (by decide)

/-- C10: after a successful unlink the panel state is a present list
(an absent state is coerced to the empty list before filtering), and the
filter removes every item whose link id equals the given one, not only
the first. -/
theorem delete_link_success_state_present
    (response : APIControllerResponse Unit) (lid : Option String)
    (st : Option (List RelatedJiraIssue)) (h : response.success = true) :
    ∃ l, (RelatedIssueCollapsible.delete_link response lid st).1 = some l
      ∧ l = (st.getD []).filter (fun i => ¬ i.id = lid)
      ∧ ∀ i ∈ l, ¬ i.id = lid := by
  refine ⟨(st.getD []).filter (fun i => ¬ i.id = lid), ?_, rfl, ?_⟩
  · simp [RelatedIssueCollapsible.delete_link, h]
  · intro i hi
    exact of_decide_eq_true (List.mem_filter.mp hi).2

/-- Witness for C10: a successful unlink of link id L1 on a state
holding two items with id L1. -/
theorem delete_link_success_state_present_witness :
    ∃ l, (RelatedIssueCollapsible.delete_link respOk (some "L1") stDup).1 = some l
      ∧ l = (stDup.getD []).filter (fun i => ¬ i.id = some "L1")
      ∧ ∀ i ∈ l, ¬ i.id = some "L1" :=
  delete_link_success_state_present respOk (some "L1") stDup rfl

/-- C3 counterexample: the claim says a successful link creation whose
re-fetch fails replaces Panel State with the empty sequence.  On a
successful link call whose fetch fails, the source skips the assignment:
a one-item state stays that one-item state and is not the empty
sequence. -/
theorem link_fetch_failure_leaves_state_cex :
    (RelatedIssuesWidget.link_work_items respOk getIssueFail (some "KEY-1") st1).1 = st1
    ∧ ¬ st1 = some []
    ∧ ¬ (RelatedIssuesWidget.link_work_items respOk getIssueFail (some "KEY-1") st1).1
        = some [] :=
  ⟨rfl, by decide, by decide⟩

/-- C3 amended: on link-creation failure an error notice is shown and
Panel State is unchanged; on success the panel re-fetches the parent
item restricted to the `issuelinks` field only (the result depends on the
fetch collaborator only through that one call), and replaces Panel State
with the relationship list of the fetched work item — the empty sequence
when that field is absent — while a failed or empty fetch leaves Panel
State unchanged. -/
theorem link_work_items_amended_contract
    (api_link : APIControllerResponse Unit)
    (g : Option String → List String → APIControllerResponse SearchResult)
    (key : Option String) (st : Option (List RelatedJiraIssue)) :
    (api_link.success = false →
      RelatedIssuesWidget.link_work_items api_link g key st
        = (st, { message := "Failed to link the work items: " ++ pyFormat api_link.error
                 severity := Severity.error
                 title := RelatedIssuesWidget.NOTIFICATIONS_DEFAULT_TITLE }))
    ∧ (api_link.success = true → (g key ["issuelinks"]).success = false →
        (RelatedIssuesWidget.link_work_items api_link g key st).1 = st)
    ∧ (api_link.success = true → (g key ["issuelinks"]).result = Option.none →
        (RelatedIssuesWidget.link_work_items api_link g key st).1 = st)
    ∧ (∀ wi rest, api_link.success = true → (g key ["issuelinks"]).success = true →
        (g key ["issuelinks"]).result = some { issues := wi :: rest } →
        (RelatedIssuesWidget.link_work_items api_link g key st).1
          = some (wi.relatedIssues.getD []))
    ∧ (∀ g2 : Option String → List String → APIControllerResponse SearchResult,
        g key ["issuelinks"] = g2 key ["issuelinks"] →
        RelatedIssuesWidget.link_work_items api_link g key st
          = RelatedIssuesWidget.link_work_items api_link g2 key st) := by
  refine ⟨?_, ?_, ?_, ?_, ?_⟩
  · intro h
    simp [RelatedIssuesWidget.link_work_items, h]
  · intro h1 h2
    cases hr : (g key ["issuelinks"]).result with
    | none => simp [RelatedIssuesWidget.link_work_items, h1, hr]
    | some result => simp [RelatedIssuesWidget.link_work_items, h1, hr, h2]
  · intro h1 h2
    simp [RelatedIssuesWidget.link_work_items, h1, h2]
  · intro wi rest h1 h2 h3
    simp [RelatedIssuesWidget.link_work_items, h1, h2, h3]
  · intro g2 hg
    simp only [RelatedIssuesWidget.link_work_items, hg]

/-- Witness for C3 at concrete inputs: a failed link call leaves the
one-item state unchanged with the error notice; a successful link call
whose fetch returns a work item without the relationship field replaces
the state with the empty sequence. -/
theorem link_work_items_amended_contract_witness :
    RelatedIssuesWidget.link_work_items respBoom getIssueFail (some "KEY-1") st1
      = (st1, { message := "Failed to link the work items: boom"
                severity := Severity.error
                title := "Related Work Items" })
    ∧ (RelatedIssuesWidget.link_work_items respOk getIssueParent (some "KEY-1") st1).1
      = some [] := by
  constructor
  · exact ((link_work_items_amended_contract respBoom getIssueFail (some "KEY-1") st1).1
      rfl).trans (by decide)
  · exact ((link_work_items_amended_contract respOk getIssueParent (some "KEY-1")
      st1).2.2.2.1 parentNoLinks [] rfl rfl rfl).trans (by decide)

/-- C4: the unlink operation has exactly two outcomes — on API failure
the error notice carries the server-supplied reason verbatim and Panel
State is unchanged; on API success the item with the matching link id is
removed from Panel State in place and a success notice is shown. -/
theorem delete_link_contract
    (response : APIControllerResponse Unit) (lid : Option String)
    (st : Option (List RelatedJiraIssue)) :
    (response.success = false →
      RelatedIssueCollapsible.delete_link response lid st
        = (st, { message := "Failed to delete the link: " ++ pyFormat response.error
                 severity := Severity.error
                 title := RelatedIssueCollapsible.NOTIFICATIONS_DEFAULT_TITLE }))
    ∧ (∀ reason, response.success = false → response.error = some reason →
        (RelatedIssueCollapsible.delete_link response lid st).2.message
          = "Failed to delete the link: " ++ reason)
    ∧ (response.success = true →
      RelatedIssueCollapsible.delete_link response lid st
        = (some ((st.getD []).filter fun i => ¬ i.id = lid),
           { message := "Link between work items deleted successfully"
             severity := Severity.information
             title := RelatedIssueCollapsible.NOTIFICATIONS_DEFAULT_TITLE })) := by
  refine ⟨?_, ?_, ?_⟩
  · intro h
    simp [RelatedIssueCollapsible.delete_link, h]
  · intro reason h he
    simp [RelatedIssueCollapsible.delete_link, h, he, pyFormat]
  · intro h
    simp [RelatedIssueCollapsible.delete_link, h]

/-- Witness for C4: the 3-item scenarios — a successful unlink of L1
leaves the two items with ids L2 and L3 with the success notice; a
failure with reason "permission denied" leaves the 3-item state
unchanged and the error notice contains the reason verbatim. -/
theorem delete_link_contract_witness :
    RelatedIssueCollapsible.delete_link respOk (some "L1") st3
      = (some [relHighB, relHighC],
         { message := "Link between work items deleted successfully"
           severity := Severity.information
           title := "Related Work Items" })
    ∧ RelatedIssueCollapsible.delete_link respDenied (some "L1") st3
      = (st3, { message := "Failed to delete the link: permission denied"
                severity := Severity.error
                title := "Related Work Items" })
    ∧ (RelatedIssueCollapsible.delete_link respDenied (some "L1") st3).2.message
      = "Failed to delete the link: permission denied" := by
  refine ⟨?_, ?_, ?_⟩
  · exact ((delete_link_contract respOk (some "L1") st3).2.2 rfl).trans (by decide)
  · exact ((delete_link_contract respDenied (some "L1") st3).1 rfl).trans (by decide)
  · exact ((delete_link_contract respDenied (some "L1") st3).2.1 "permission denied"
      rfl rfl).trans (by decide)

/-- C5: the format converter never propagates an exception — whenever
the document-to-text transform throws, the exception is caught, a
warning carrying the exception text is logged (second component), and
the converter returns the stringified original value when truthy,
otherwise the placeholder. -/
theorem convert_to_markdown_catches_exceptions
    (transform : String → Bool → Except String String) (value : ADFValue) (e : String)
    (h : ADFTextAreaWidget.convert_adf_to_markdown transform value = Except.error e) :
    ADFTextAreaWidget._convert_to_markdown transform value
      = (if value.pyTruthy then value.pyStr else "_No content_",
         some ("Failed to convert ADF to markdown: " ++ e)) := by
  simp [ADFTextAreaWidget._convert_to_markdown, h]

/-- Witness for C5: a throwing transform on a truthy document yields the
stringified document and a logged warning carrying the exception text. -/
theorem convert_to_markdown_catches_exceptions_witness :
    ADFTextAreaWidget._convert_to_markdown failTransform adfDoc1
      = ("adf document body", some "Failed to convert ADF to markdown: boom") :=
  (convert_to_markdown_catches_exceptions failTransform adfDoc1 "boom" rfl).trans
    (by decide)

/-- C6: the converter returns the placeholder for absent input, for the
empty string, and for a document whose conversion result is
whitespace-only, and passes a non-empty plain string through
unchanged. -/
theorem convert_to_markdown_placeholder_cases :
    ADFTextAreaWidget._convert_to_markdown okTransform ADFValue.null
      = ("_No content_", Option.none)
    ∧ ADFTextAreaWidget._convert_to_markdown okTransform (ADFValue.str "")
      = ("_No content_", Option.none)
    ∧ ADFTextAreaWidget._convert_to_markdown okTransform (ADFValue.str "hello")
      = ("hello", Option.none)
    ∧ ADFTextAreaWidget._convert_to_markdown (fun _ _ => Except.ok "   ") adfDoc1
      = ("_No content_", Option.none) := by
  refine ⟨?_, ?_, ?_, ?_⟩ <;> decide
